import Mathlib

/-!
Shallow embedding of the TurfCast lawn-watering advisor (src/app/state.py).
Floats in the source are modelled as rationals; Python dictionaries as
association lists; fallible steps as `Except`/`Option`.  External I/O
(postcode download, weather fetch) is modelled by an oracle environment.
-/

namespace TurfCast

/-- Python `round(x)`: round to nearest integer, ties to even. -/
def roundHalfEven (q : ℚ) : ℤ :=
  let f := ⌊q⌋
  let r := q - f
  if r < 1/2 then f
  else if 1/2 < r then f + 1
  else if f % 2 = 0 then f else f + 1

/-- `sum(p for p in l if p is not None)`: sum a list of optional rainfall
values, treating absent entries as 0. -/
def sumOpt (l : List (Option ℚ)) : ℚ :=
  (l.filterMap id).sum

/-- `GRASS_TARGETS` (state.py lines 108-117): per-grass seasonal rainfall
targets in mm/week. -/
def GRASS_TARGETS : List (String × List (String × ℚ)) :=
  [("buffalo", [("spring", 20), ("summer", 25), ("autumn", 15), ("winter", 0)]),
   ("kikuyu", [("spring", 20), ("summer", 30), ("autumn", 15), ("winter", 0)]),
   ("couch_bermuda", [("spring", 15), ("summer", 25), ("autumn", 10), ("winter", 0)]),
   ("zoysia", [("spring", 20), ("summer", 25), ("autumn", 15), ("winter", 0)]),
   ("qld_blue_couch", [("spring", 15), ("summer", 25), ("autumn", 15), ("winter", 0)]),
   ("tall_fescue", [("spring", 25), ("summer", 30), ("autumn", 25), ("winter", 10)]),
   ("fine_fescue", [("spring", 20), ("summer", 30), ("autumn", 20), ("winter", 10)]),
   ("seashore_paspalum", [("spring", 20), ("summer", 30), ("autumn", 15), ("winter", 0)])]

/-- `SPRINKLER_RATES` (state.py lines 118-124): mm delivered per 10 minutes. -/
def SPRINKLER_RATES : List (String × ℚ) :=
  [("Oscillating", 20), ("Fixed/Dome", 20), ("Rotary/Gear-drive", 30),
   ("Impact", 25), ("Dripline", 40)]

/-- `GRASS_TARGETS.get(grass_type, {}).get(season, 0)` (state.py line 316). -/
def grassTarget (grass season : String) : ℚ :=
  (((GRASS_TARGETS.lookup grass).getD []).lookup season).getD 0

/-- `SPRINKLER_RATES.get(sprinkler_type, 20)` (state.py line 343). -/
def sprinklerRate (sprinkler : String) : ℚ :=
  (SPRINKLER_RATES.lookup sprinkler).getD 20

/-- `_get_season` (state.py lines 300-309), Southern-Hemisphere mapping
from month number to season name. -/
def getSeason (month : ℕ) : String :=
  if month ∈ ([12, 1, 2] : List ℕ) then "summer"
  else if month ∈ ([3, 4, 5] : List ℕ) then "autumn"
  else if month ∈ ([6, 7, 8] : List ℕ) then "winter"
  else "spring"

/-- `winter_exception_grasses` (state.py lines 324-329). -/
def winterExceptionGrasses : List String :=
  ["buffalo", "kikuyu", "zoysia", "seashore_paspalum"]

/-- Seasonal target for a grass at a given month:
`target_mm = GRASS_TARGETS.get(grass_type, {}).get(season, 0)`. -/
def targetMmOf (grass : String) (month : ℕ) : ℚ :=
  grassTarget grass (getSeason month)

/-- `observed_mm = sum(p for p in daily_precip[:7] if p is not None)`
(state.py line 323). -/
def observedMm (daily_precip : List (Option ℚ)) : ℚ :=
  sumOpt (daily_precip.take 7)

/-- `forecast_48h_mm = sum(p for p in daily_precip[7:9] if p is not None)`
(state.py line 342). -/
def forecast48Mm (daily_precip : List (Option ℚ)) : ℚ :=
  sumOpt ((daily_precip.drop 7).take 2)

/-- Deficit computation (state.py lines 324-341): winter-exception grasses
get a binary 5-or-0 rule (over 14 days of data when available, else over
the 7 observed days); all other cases, including fine fescue in winter,
use `max(0, target - observed)`. -/
def deficitMmOf (grass : String) (month : ℕ) (daily_precip : List (Option ℚ)) : ℚ :=
  let season := getSeason month
  let target_mm := targetMmOf grass month
  let observed_mm := observedMm daily_precip
  if grass ∈ winterExceptionGrasses ∧ season = "winter" then
    if 14 ≤ daily_precip.length then
      if sumOpt (daily_precip.take 14) < 10 then 5 else 0
    else
      if observed_mm < 5 then 5 else 0
  else if grass = "fine_fescue" ∧ season = "winter" then
    max 0 (target_mm - observed_mm)
  else
    max 0 (target_mm - observed_mm)

/-- Base watering duration (state.py lines 343-345):
`raw = deficit_mm * (minutes_per_10mm / 10.0)`;
`watering_minutes = int(5 * round(raw / 5))`. -/
def baseMinutes (grass sprinkler : String) (month : ℕ)
    (daily_precip : List (Option ℚ)) : ℤ :=
  5 * roundHalfEven (deficitMmOf grass month daily_precip * (sprinklerRate sprinkler / 10) / 5)

/-- `int(5 * round(watering_minutes / 2 / 5))` (state.py line 359): halve
the current minutes and re-round to the nearest multiple of 5. -/
def halveRound5 (watering_minutes : ℤ) : ℤ :=
  5 * roundHalfEven ((watering_minutes : ℚ) / 2 / 5)

/-- Substring test, Python's `"split" in recommendation`. -/
def strContains (s pat : String) : Bool :=
  decide (pat.toList <:+: s.toList)

/-- Split-session suggestion step (state.py lines 377-378): when the final
minutes exceed 45 and the text does not already mention "split", append
the fixed advice sentence. -/
def addSplitSuggestion (watering_minutes : ℤ) (recommendation : String) : String :=
  if 45 < watering_minutes ∧ strContains recommendation "split" = false then
    recommendation ++ " Consider splitting this into two shorter sessions to improve absorption."
  else recommendation

/-- `round(x, 1)`: round to one decimal place, ties to even (state.py
lines 382-385; the source applies Python's float `round`, modelled here
as exact decimal rounding on rationals). -/
def round1 (q : ℚ) : ℚ :=
  (roundHalfEven (q * 10) : ℚ) / 10

/-- `CalculationResult` (state.py lines 28-38).  The `week_ending` date
string is presentation-only formatting of `today` and is omitted. -/
structure CalculationResult where
  season : String
  target_mm : ℚ
  observed_mm : ℚ
  deficit_mm : ℚ
  forecast_48h_mm : ℚ
  watering_minutes : ℤ
  emoji : String
  status_text : String
  recommendation : String
deriving Repr, DecidableEq

/-- Classification ladder (state.py lines 346-376), evaluated in source
order, first match wins.  Returns (emoji, status_text, recommendation,
watering_minutes). -/
def classify (target_mm observed_mm deficit_mm forecast_48h_mm : ℚ)
    (watering_minutes : ℤ) : String × String × String × ℤ :=
  if 25 ≤ forecast_48h_mm ∨ (0 < target_mm ∧ target_mm ≤ observed_mm) then
    ("🌧️", "Heavy Rain - Skip",
     "Nature's got it covered. No watering needed this week.", 0)
  else if (5 ≤ forecast_48h_mm ∧ forecast_48h_mm < 25) ∨
      (0 < target_mm ∧ |target_mm - observed_mm| ≤ 3) then
    ("🌦️", "Light Rain - Monitor",
     "Monitor your lawn. Watering may not be necessary.",
     halveRound5 watering_minutes)
  else if 15 < deficit_mm ∧ forecast_48h_mm < 5 then
    ("🔥", "Very Dry - Deep Water",
     s!"A deep watering is needed. Water for {watering_minutes} minutes.",
     watering_minutes)
  else if 0 < deficit_mm then
    ("☀️", "Dry - Water Needed",
     s!"Your lawn is thirsty. Water for {watering_minutes} minutes.",
     watering_minutes)
  else
    ("✅", "All Good", "Your lawn has received enough water recently.", 0)

/-- The `calculation_result` dict built in the success case of
`_perform_calculations` (state.py lines 342-390). -/
def mkResult (grass_type sprinkler_type : String) (month : ℕ)
    (daily_precip : List (Option ℚ)) : CalculationResult :=
  let branch := classify (targetMmOf grass_type month) (observedMm daily_precip)
    (deficitMmOf grass_type month daily_precip) (forecast48Mm daily_precip)
    (baseMinutes grass_type sprinkler_type month daily_precip)
  { season := (getSeason month).capitalize
    target_mm := round1 (targetMmOf grass_type month)
    observed_mm := round1 (observedMm daily_precip)
    deficit_mm := round1 (deficitMmOf grass_type month daily_precip)
    forecast_48h_mm := round1 (forecast48Mm daily_precip)
    watering_minutes := branch.2.2.2
    emoji := branch.1
    status_text := branch.2.1
    recommendation := addSplitSuggestion branch.2.2.2 branch.2.2.1 }

/-- `_perform_calculations` (state.py lines 311-390): the pure watering
decision engine.  Inputs are the user's grass and sprinkler selections,
the current month (which determines the season), and the daily
precipitation series; output is either the error message stored in
`error_message` or the stored `calculation_result`. -/
def performCalculations (grass_type sprinkler_type : String) (month : ℕ)
    (daily_precip : List (Option ℚ)) : Except String CalculationResult :=
  if daily_precip.isEmpty ∨ daily_precip.length < 9 then
    .error "Incomplete weather data received. Cannot perform calculation."
  else
    .ok (mkResult grass_type sprinkler_type month daily_precip)

/-! ## Postcode index (on_load, state.py lines 151-212) -/

/-- One item of the downloaded postcode dataset.  Fields the source reads
with `item.get(...)` are optional; `locality` is read with `item[...]`
and is modelled as present. -/
structure RawRecord where
  postcode : Option String
  state : Option String
  lat : Option ℚ
  latPrecise : Option ℚ
  long : Option ℚ
  longPrecise : Option ℚ
  locality : String
deriving Repr, DecidableEq

/-- One value of `processed_postcodes` (state.py lines 175-184). -/
structure PostcodeEntry where
  latitude : Option ℚ
  longitude : Option ℚ
  locality : String
  state : Option String
deriving Repr, DecidableEq

/-- Target-region filter (state.py lines 167-174): state VIC, or WA with
`float(item.get("lat", 0)) < -20`, or NT. -/
def keepRecord (r : RawRecord) : Bool :=
  decide (r.state = some "VIC" ∨
    (r.state = some "WA" ∧ r.lat.getD 0 < -20) ∨
    r.state = some "NT")

/-- Entry stored for a kept record (state.py lines 175-184):
`Lat_precise`/`Long_precise` with `lat`/`long` as fallback. -/
def mkEntry (r : RawRecord) : PostcodeEntry :=
  { latitude := r.latPrecise.or r.lat
    longitude := r.longPrecise.or r.long
    locality := r.locality
    state := r.state }

/-- The loop body of the index build (state.py lines 164-184):
`if pc and pc not in processed_postcodes:` then the region filter, then
insertion.  The dict is modelled as an association list in insertion
order. -/
def addRecord (acc : List (String × PostcodeEntry)) (r : RawRecord) :
    List (String × PostcodeEntry) :=
  match r.postcode with
  | none => acc
  | some pc =>
    if pc ≠ "" ∧ acc.lookup pc = none ∧ keepRecord r = true then
      acc ++ [(pc, mkEntry r)]
    else acc

/-- `processed_postcodes` built from the raw dataset (state.py 163-184). -/
def buildIndex (items : List RawRecord) : List (String × PostcodeEntry) :=
  items.foldl addRecord []

/-- Does record `r` carry postcode `pc` (non-empty, Python-truthy) and
pass the region filter? -/
def matchesPC (pc : String) (r : RawRecord) : Bool :=
  decide (r.postcode = some pc) && decide (pc ≠ "") && keepRecord r

/-- The first record of the dataset that both carries postcode `pc` and
passes the region filter. -/
def firstKept (items : List RawRecord) (pc : String) : Option RawRecord :=
  items.find? (matchesPC pc)

/-! ## Orchestrator (calculate_watering, state.py lines 214-244)

External I/O (the postcode-index lookup inside `_resolve_location`, the
weather request inside `_fetch_weather_data`, and today's date) is
abstracted by an oracle `Env`; each step's effect on the session state
follows the source. -/

/-- `Location` (state.py lines 22-26). -/
structure Location where
  lat : ℚ
  lon : ℚ
  display_name : String
deriving Repr, DecidableEq

/-- The fields of `LawnState` the calculate sequence reads or writes
(state.py lines 128-145). -/
structure SessionState where
  grass_type : String
  postcode : String
  sprinkler_type : String
  is_loading : Bool
  error_message : String
  location : Option Location
  weather_station_info : String
  calculation_result : Option CalculationResult
  show_results : Bool
deriving Repr, DecidableEq

/-- `is_form_valid` (state.py lines 147-149). -/
def isFormValid (s : SessionState) : Bool :=
  decide (s.postcode.length = 4) && s.postcode.toList.all Char.isDigit

/-- Oracle outcome of `_resolve_location`: a location found, a handled
failure (not-found or data-unavailable message), or an exception escaping
the helper (e.g. from the index file I/O or float conversion). -/
inductive ResolveOutcome where
  | found (loc : Location)
  | failed (msg : String)
  | raised (msg : String)
deriving Repr, DecidableEq

/-- Oracle outcome of `_fetch_weather_data`: every exception inside it is
caught and converted to a stored message, so it either yields the daily
precipitation series or a handled failure. -/
inductive FetchOutcome where
  | success (daily_precip : List (Option ℚ))
  | failed (msg : String)
deriving Repr, DecidableEq

/-- Oracle for the calculate sequence's external interactions. -/
structure Env where
  resolve : ResolveOutcome
  fetch : FetchOutcome
  month : ℕ
deriving Repr, DecidableEq

/-- `_resolve_location` (state.py lines 246-267) as a state update:
either stores the location and station info, or stores an error message
and clears the location, or raises. -/
def resolveLocation (env : Env) (s : SessionState) : Except String SessionState :=
  match env.resolve with
  | .found loc =>
    .ok { s with location := some loc,
                 weather_station_info := "Nearest weather station data" }
  | .failed msg => .ok { s with error_message := msg, location := none }
  | .raised msg => .error msg

/-- `_fetch_weather_data` (state.py lines 269-298) as a state update:
returns the series, or stores an error message and returns nothing. -/
def fetchWeatherData (env : Env) (s : SessionState) :
    SessionState × Option (List (Option ℚ)) :=
  match env.fetch with
  | .success daily_precip => (s, some daily_precip)
  | .failed msg => ({ s with error_message := msg }, none)

/-- `_perform_calculations` as a state update: stores either the error
message or the calculation result (state.py lines 311-390). -/
def performCalculationsStep (s : SessionState) (month : ℕ)
    (daily_precip : List (Option ℚ)) : SessionState :=
  match performCalculations s.grass_type s.sprinkler_type month daily_precip with
  | .error msg => { s with error_message := msg }
  | .ok r => { s with calculation_result := some r }

/-- The `try` body of `calculate_watering` (state.py lines 224-239),
including the early returns after resolution and fetch failures and the
`except` handler that stores the generic message. -/
def tryBody (env : Env) (s1 : SessionState) : SessionState :=
  match resolveLocation env s1 with
  | .error msg =>
    { s1 with error_message := "An unexpected error occurred: " ++ msg }
  | .ok s2 =>
    match s2.location with
    | none => { s2 with is_loading := false }
    | some _ =>
      let fetched := fetchWeatherData env s2
      match fetched.2 with
      | none => { fetched.1 with is_loading := false }
      | some daily_precip => performCalculationsStep fetched.1 env.month daily_precip

/-- The `finally` block (state.py lines 240-244): clear the loading flag,
and mark results visible when there is no error and a result is stored. -/
def finallyStep (s : SessionState) : SessionState :=
  let s4 := { s with is_loading := false }
  if s4.error_message = "" ∧ s4.calculation_result.isSome then
    { s4 with show_results := true }
  else s4

/-- `calculate_watering` (state.py lines 214-244): postcode validation,
then reset of loading/error/visibility, then the try body with its
guaranteed-cleanup `finally`. -/
def calculateWatering (env : Env) (s : SessionState) : SessionState :=
  if isFormValid s = false then
    { s with error_message := "Please enter a valid 4-digit postcode." }
  else
    finallyStep (tryBody env
      { s with is_loading := true, error_message := "", show_results := false })

/-! ## Helper lemmas -/

lemma getSeason_winter {month : ℕ} (hm : month = 6 ∨ month = 7 ∨ month = 8) :
    getSeason month = "winter" := by
  rcases hm with h | h | h <;> subst h <;> decide

lemma performCalculations_ok (grass sprinkler : String) (month : ℕ)
    (ps : List (Option ℚ)) (hlen : 9 ≤ ps.length) :
    performCalculations grass sprinkler month ps =
      .ok (mkResult grass sprinkler month ps) := by
  unfold performCalculations
  rw [if_neg]
  rintro (h | h)
  · rw [List.isEmpty_iff] at h
    subst h
    simp at hlen
  · omega

lemma roundHalfEven_nonneg {q : ℚ} (h : 0 ≤ q) : 0 ≤ roundHalfEven q := by
  simp only [roundHalfEven]
  have hf : (0 : ℤ) ≤ ⌊q⌋ := Int.floor_nonneg.2 h
  split_ifs <;> omega

lemma deficitMm_nonneg (grass : String) (month : ℕ) (ps : List (Option ℚ)) :
    0 ≤ deficitMmOf grass month ps := by
  simp only [deficitMmOf]
  split_ifs <;> norm_num

lemma sprinklerRate_pos (s : String) : 0 < sprinklerRate s := by
  unfold sprinklerRate SPRINKLER_RATES
  simp only [List.lookup_cons, List.lookup_nil]
  repeat' split
  all_goals norm_num

lemma baseMinutes_nonneg (grass sprinkler : String) (month : ℕ)
    (ps : List (Option ℚ)) : 0 ≤ baseMinutes grass sprinkler month ps := by
  unfold baseMinutes
  have h1 := deficitMm_nonneg grass month ps
  have h2 := (sprinklerRate_pos sprinkler).le
  have h3 : (0 : ℚ) ≤ deficitMmOf grass month ps * (sprinklerRate sprinkler / 10) / 5 :=
    div_nonneg (mul_nonneg h1 (div_nonneg h2 (by norm_num))) (by norm_num)
  have h4 := roundHalfEven_nonneg h3
  omega

lemma halveRound5_nonneg (w : ℤ) (h : 0 ≤ w) : 0 ≤ halveRound5 w := by
  unfold halveRound5
  have h3 : (0 : ℚ) ≤ (w : ℚ) / 2 / 5 := by
    have : (0 : ℚ) ≤ (w : ℚ) := by exact_mod_cast h
    positivity
  have h4 := roundHalfEven_nonneg h3
  omega

lemma classify_minutes_cases (t o d f : ℚ) (w : ℤ) :
    (classify t o d f w).2.2.2 = 0 ∨ (classify t o d f w).2.2.2 = halveRound5 w ∨
      (classify t o d f w).2.2.2 = w := by
  unfold classify
  split_ifs <;> simp

/-! ## Claim theorems -/

/-- C7: for any grass, sprinkler and month, a precipitation series of
length < 9 (including empty) makes the engine signal the
incomplete-weather-data error; no recommendation is produced. -/
theorem insufficientDataSignal (grass sprinkler : String) (month : ℕ)
    (ps : List (Option ℚ)) (hlen : ps.length < 9) :
    performCalculations grass sprinkler month ps =
      .error "Incomplete weather data received. Cannot perform calculation." := by
  unfold performCalculations
  rw [if_pos (Or.inr hlen)]

theorem insufficientDataSignalWitness :
    ([] : List (Option ℚ)).length < 9 ∧
      performCalculations "buffalo" "Oscillating" 7 [] =
        .error "Incomplete weather data received. Cannot perform calculation." :=
  ⟨by decide, insufficientDataSignal "buffalo" "Oscillating" 7 [] (by decide)⟩

/-- C8: the split-session step appends the fixed suggestion exactly once
when the final minutes exceed 45 and the text does not already mention
"split", and leaves the text unchanged otherwise. -/
theorem splitSuggestionAppend (watering_minutes : ℤ) (text : String) :
    (45 < watering_minutes → strContains text "split" = false →
      addSplitSuggestion watering_minutes text =
        text ++ " Consider splitting this into two shorter sessions to improve absorption.") ∧
    (watering_minutes ≤ 45 ∨ strContains text "split" = true →
      addSplitSuggestion watering_minutes text = text) := by
  constructor
  · intro h1 h2
    unfold addSplitSuggestion
    rw [if_pos ⟨h1, h2⟩]
  · intro h
    unfold addSplitSuggestion
    rw [if_neg]
    rintro ⟨h1, h2⟩
    rcases h with h | h
    · omega
    · rw [h] at h2
      cases h2

theorem splitSuggestionAppendWitness :
    addSplitSuggestion 50 "A deep watering is needed. Water for 50 minutes." =
      "A deep watering is needed. Water for 50 minutes. Consider splitting this into two shorter sessions to improve absorption." ∧
    addSplitSuggestion 45 "A deep watering is needed. Water for 45 minutes." =
      "A deep watering is needed. Water for 45 minutes." :=
  ⟨(splitSuggestionAppend 50 "A deep watering is needed. Water for 50 minutes.").1
      (by decide) (by decide),
   (splitSuggestionAppend 45 "A deep watering is needed. Water for 45 minutes.").2
      (Or.inl (by decide))⟩

/-- C1: tall fescue in a winter month (seasonal target 10 mm) with a
9-entry series whose first seven entries sum to 2 mm and whose entries 7
and 8 are both 0, under an Oscillating sprinkler (rate 20), yields
deficit 8.0, forecast 0, 15 watering minutes (raw 16 rounded to the
nearest multiple of 5), ☀️ and "Dry - Water Needed". -/
theorem tallFescueWinterScenario (month : ℕ) (hm : month = 6 ∨ month = 7 ∨ month = 8)
    (ps : List (Option ℚ)) (hlen : ps.length = 9)
    (hobs : observedMm ps = 2) (hfc : ps.drop 7 = [some 0, some 0]) :
    performCalculations "tall_fescue" "Oscillating" month ps =
      .ok { season := "Winter", target_mm := 10, observed_mm := 2, deficit_mm := 8,
            forecast_48h_mm := 0, watering_minutes := 15, emoji := "☀️",
            status_text := "Dry - Water Needed",
            recommendation := "Your lawn is thirsty. Water for 15 minutes." } := by
  have hseason := getSeason_winter hm
  have htarget : targetMmOf "tall_fescue" month = 10 := by
    unfold targetMmOf
    rw [hseason]
    rfl
  have hdef : deficitMmOf "tall_fescue" month ps = 8 := by
    simp only [deficitMmOf, hseason, htarget, hobs]
    split_ifs <;>
      first
        | exact absurd (‹"tall_fescue" ∈ winterExceptionGrasses ∧ True›).1 (by decide)
        | norm_num
  have hfc2 : forecast48Mm ps = 0 := by
    unfold forecast48Mm
    rw [hfc]
    norm_num [sumOpt, List.take, List.filterMap_cons]
  have hrate : sprinklerRate "Oscillating" = 20 := rfl
  have hbase : baseMinutes "tall_fescue" "Oscillating" month ps = 15 := by
    unfold baseMinutes
    rw [hdef, hrate]
    norm_num [roundHalfEven]
  have hcls : classify 10 2 8 0 15 =
      ("☀️", "Dry - Water Needed", "Your lawn is thirsty. Water for 15 minutes.", 15) := by
    unfold classify
    rw [if_neg (by norm_num), if_neg (by norm_num), if_neg (by norm_num),
      if_pos (by norm_num)]
    rfl
  rw [performCalculations_ok _ _ _ _ (by omega)]
  simp only [mkResult, htarget, hobs, hdef, hfc2, hbase, hseason, hcls]
  norm_num [round1, roundHalfEven, addSplitSuggestion]
  rfl

theorem tallFescueWinterScenarioWitness :
    performCalculations "tall_fescue" "Oscillating" 7
      [some 2, none, some 0, some 0, some 0, some 0, some 0, some 0, some 0] =
      .ok { season := "Winter", target_mm := 10, observed_mm := 2, deficit_mm := 8,
            forecast_48h_mm := 0, watering_minutes := 15, emoji := "☀️",
            status_text := "Dry - Water Needed",
            recommendation := "Your lawn is thirsty. Water for 15 minutes." } :=
  tallFescueWinterScenario 7 (Or.inr (Or.inl rfl))
    [some 2, none, some 0, some 0, some 0, some 0, some 0, some 0, some 0]
    rfl (by norm_num [observedMm, sumOpt, List.take, List.filterMap_cons]) rfl

/-- C2: whenever the 48-hour forecast reaches 25 mm, or the target is
positive and observed rainfall meets it, the engine answers 🌧️
"Heavy Rain - Skip" with 0 watering minutes, regardless of the deficit
(classification rule a precedes rule c). -/
theorem heavyRainSkipPrecedence (grass sprinkler : String) (month : ℕ)
    (ps : List (Option ℚ)) (hlen : 9 ≤ ps.length)
    (hcond : 25 ≤ forecast48Mm ps ∨
      (0 < targetMmOf grass month ∧ targetMmOf grass month ≤ observedMm ps)) :
    ∃ r, performCalculations grass sprinkler month ps = .ok r ∧
      r.emoji = "🌧️" ∧ r.status_text = "Heavy Rain - Skip" ∧
      r.watering_minutes = 0 := by
  refine ⟨_, performCalculations_ok _ _ _ _ hlen, ?_, ?_, ?_⟩ <;>
  · simp only [mkResult, classify]
    rw [if_pos hcond]

theorem heavyRainSkipPrecedenceWitness :
    ∃ r, performCalculations "kikuyu" "Dripline" 1
        [some 5, some 5, some 5, some 5, some 0, some 0, some 0, some 30, some 0] =
        .ok r ∧
      r.emoji = "🌧️" ∧ r.status_text = "Heavy Rain - Skip" ∧
      r.watering_minutes = 0 :=
  heavyRainSkipPrecedence "kikuyu" "Dripline" 1
    [some 5, some 5, some 5, some 5, some 0, some 0, some 0, some 30, some 0]
    (by simp)
    (Or.inl (by norm_num [forecast48Mm, sumOpt, List.take, List.drop, List.filterMap_cons]))

/-- C5: when rule (a) does not apply but the forecast is in the 5-25 mm
band, or the target is positive and observed rainfall is within 3 mm of
it, the engine answers 🌦️ "Light Rain - Monitor" and halves the base
watering minutes, re-rounding to the nearest multiple of 5
(half-to-even). -/
theorem lightRainMonitorBand (grass sprinkler : String) (month : ℕ)
    (ps : List (Option ℚ)) (hlen : 9 ≤ ps.length)
    (hnota : ¬(25 ≤ forecast48Mm ps ∨
      (0 < targetMmOf grass month ∧ targetMmOf grass month ≤ observedMm ps)))
    (hcond : (5 ≤ forecast48Mm ps ∧ forecast48Mm ps < 25) ∨
      (0 < targetMmOf grass month ∧ |targetMmOf grass month - observedMm ps| ≤ 3)) :
    ∃ r, performCalculations grass sprinkler month ps = .ok r ∧
      r.emoji = "🌦️" ∧ r.status_text = "Light Rain - Monitor" ∧
      r.watering_minutes = halveRound5 (baseMinutes grass sprinkler month ps) := by
  refine ⟨_, performCalculations_ok _ _ _ _ hlen, ?_, ?_, ?_⟩ <;>
  · simp only [mkResult, classify]
    rw [if_neg hnota, if_pos hcond]

theorem lightRainMonitorBandWitness :
    ∃ r, performCalculations "buffalo" "Oscillating" 10
        [some 19, some 0, some 0, some 0, some 0, some 0, some 0, some 0, some 0] =
        .ok r ∧
      r.emoji = "🌦️" ∧ r.status_text = "Light Rain - Monitor" ∧
      r.watering_minutes = halveRound5 (baseMinutes "buffalo" "Oscillating" 10
        [some 19, some 0, some 0, some 0, some 0, some 0, some 0, some 0, some 0]) :=
  lightRainMonitorBand "buffalo" "Oscillating" 10
    [some 19, some 0, some 0, some 0, some 0, some 0, some 0, some 0, some 0]
    (by simp)
    (by
      have h1 : targetMmOf "buffalo" 10 = 20 := rfl
      have h2 : observedMm
          [some 19, some 0, some 0, some 0, some 0, some 0, some 0, some 0, some 0] = 19 := by
        norm_num [observedMm, sumOpt, List.take, List.filterMap_cons]
      have h3 : forecast48Mm
          [some 19, some 0, some 0, some 0, some 0, some 0, some 0, some 0, some 0] = 0 := by
        norm_num [forecast48Mm, sumOpt, List.take, List.drop, List.filterMap_cons]
      rw [h1, h2, h3]
      norm_num)
    (Or.inr (by
      have h1 : targetMmOf "buffalo" 10 = 20 := rfl
      have h2 : observedMm
          [some 19, some 0, some 0, some 0, some 0, some 0, some 0, some 0, some 0] = 19 := by
        norm_num [observedMm, sumOpt, List.take, List.filterMap_cons]
      rw [h1, h2]
      norm_num))

/-- C3: for a winter-exception grass in a winter month with only 9-13
days of data, the deficit is 5.0 when the observed 7-day rainfall is
below 5 mm and 0.0 otherwise, regardless of the (zero) winter target. -/
theorem winterExceptionFallbackDeficit (grass : String)
    (hg : grass ∈ winterExceptionGrasses) (sprinkler : String) (month : ℕ)
    (hm : month = 6 ∨ month = 7 ∨ month = 8) (ps : List (Option ℚ))
    (hlen : 9 ≤ ps.length) (hshort : ps.length < 14) :
    ∃ r, performCalculations grass sprinkler month ps = .ok r ∧
      r.deficit_mm = (if observedMm ps < 5 then (5 : ℚ) else 0) := by
  have hdef : deficitMmOf grass month ps = if observedMm ps < 5 then (5 : ℚ) else 0 := by
    simp only [deficitMmOf, getSeason_winter hm]
    rw [if_pos ⟨hg, trivial⟩, if_neg (by omega)]
  refine ⟨_, performCalculations_ok _ _ _ _ hlen, ?_⟩
  show round1 (deficitMmOf grass month ps) = _
  rw [hdef]
  split_ifs <;> norm_num [round1, roundHalfEven]

theorem winterExceptionFallbackDeficitWitness :
    ∃ r, performCalculations "buffalo" "Oscillating" 7
        [some 3, some 0, some 0, some 0, some 0, some 0, some 0, some 0, some 0] =
        .ok r ∧
      r.deficit_mm = (if observedMm
        [some 3, some 0, some 0, some 0, some 0, some 0, some 0, some 0, some 0] < 5
        then (5 : ℚ) else 0) :=
  winterExceptionFallbackDeficit "buffalo" (by decide) "Oscillating" 7
    (Or.inr (Or.inl rfl))
    [some 3, some 0, some 0, some 0, some 0, some 0, some 0, some 0, some 0]
    (by simp) (by simp)

/-- C4: for a winter-exception grass in a winter month with at least 14
days of data, the engine sums the first 14 entries of the series (the
source's 14-day window `daily_precip[:14]`) and sets the deficit to 5.0
when that sum is below 10 mm and to 0.0 otherwise. -/
theorem winterExceptionFourteenDayDeficit (grass : String)
    (hg : grass ∈ winterExceptionGrasses) (sprinkler : String) (month : ℕ)
    (hm : month = 6 ∨ month = 7 ∨ month = 8) (ps : List (Option ℚ))
    (hlen : 14 ≤ ps.length) :
    ∃ r, performCalculations grass sprinkler month ps = .ok r ∧
      r.deficit_mm = (if sumOpt (ps.take 14) < 10 then (5 : ℚ) else 0) := by
  have hdef : deficitMmOf grass month ps =
      if sumOpt (ps.take 14) < 10 then (5 : ℚ) else 0 := by
    simp only [deficitMmOf, getSeason_winter hm]
    rw [if_pos ⟨hg, trivial⟩, if_pos hlen]
  refine ⟨_, performCalculations_ok _ _ _ _ (by omega), ?_⟩
  show round1 (deficitMmOf grass month ps) = _
  rw [hdef]
  split_ifs <;> norm_num [round1, roundHalfEven]

theorem winterExceptionFourteenDayDeficitWitness :
    ∃ r, performCalculations "zoysia" "Impact" 6
        [some 1, some 0, some 0, some 0, some 0, some 0, some 0, some 0, some 0,
         some 0, some 0, some 0, some 0, some 2] =
        .ok r ∧
      r.deficit_mm = (if sumOpt (List.take 14
        [some 1, some 0, some 0, some 0, some 0, some 0, some 0, some 0, some 0,
         some 0, some 0, some 0, some 0, some 2]) < 10
        then (5 : ℚ) else 0) :=
  winterExceptionFourteenDayDeficit "zoysia" (by decide) "Impact" 6
    (Or.inl rfl)
    [some 1, some 0, some 0, some 0, some 0, some 0, some 0, some 0, some 0,
     some 0, some 0, some 0, some 0, some 2]
    (by simp)

/-- C6: every recommendation the engine produces has watering minutes
that are a non-negative multiple of 5: the base value is
5 × round-half-even(raw/5) with the sprinkler rate defaulting to 20, and
every classification branch forces 0, keeps the base, or halves and
re-rounds to a multiple of 5. -/
theorem wateringMinutesMultipleOfFive (grass sprinkler : String) (month : ℕ)
    (ps : List (Option ℚ)) (r : CalculationResult)
    (h : performCalculations grass sprinkler month ps = .ok r) :
    0 ≤ r.watering_minutes ∧ (5 : ℤ) ∣ r.watering_minutes := by
  unfold performCalculations at h
  by_cases hg : ps.isEmpty ∨ ps.length < 9
  · rw [if_pos hg] at h
    exact Except.noConfusion h
  · rw [if_neg hg] at h
    injection h with h'
    subst h'
    have hbase0 := baseMinutes_nonneg grass sprinkler month ps
    have hcases := classify_minutes_cases (targetMmOf grass month) (observedMm ps)
      (deficitMmOf grass month ps) (forecast48Mm ps)
      (baseMinutes grass sprinkler month ps)
    have hw : (mkResult grass sprinkler month ps).watering_minutes =
        (classify (targetMmOf grass month) (observedMm ps)
          (deficitMmOf grass month ps) (forecast48Mm ps)
          (baseMinutes grass sprinkler month ps)).2.2.2 := rfl
    rw [hw]
    rcases hcases with hc | hc | hc <;> rw [hc]
    · exact ⟨le_refl 0, Dvd.intro 0 rfl⟩
    · exact ⟨halveRound5_nonneg _ hbase0, ⟨_, rfl⟩⟩
    · exact ⟨hbase0, ⟨_, rfl⟩⟩

theorem wateringMinutesMultipleOfFiveWitness :
    0 ≤ (mkResult "tall_fescue" "Oscillating" 7
      [some 2, none, some 0, some 0, some 0, some 0, some 0, some 0, some 0]).watering_minutes ∧
    (5 : ℤ) ∣ (mkResult "tall_fescue" "Oscillating" 7
      [some 2, none, some 0, some 0, some 0, some 0, some 0, some 0, some 0]).watering_minutes :=
  wateringMinutesMultipleOfFive "tall_fescue" "Oscillating" 7
    [some 2, none, some 0, some 0, some 0, some 0, some 0, some 0, some 0]
    (mkResult "tall_fescue" "Oscillating" 7
      [some 2, none, some 0, some 0, some 0, some 0, some 0, some 0, some 0])
    (performCalculations_ok "tall_fescue" "Oscillating" 7
      [some 2, none, some 0, some 0, some 0, some 0, some 0, some 0, some 0] (by simp))

lemma lookup_append {α β : Type} [BEq α] (l₁ l₂ : List (α × β)) (a : α) :
    (l₁ ++ l₂).lookup a = (l₁.lookup a).or (l₂.lookup a) := by
  induction l₁ with
  | nil => simp
  | cons kv l ih =>
    obtain ⟨k, v⟩ := kv
    rw [List.cons_append, List.lookup_cons, List.lookup_cons]
    cases h : a == k
    · simpa using ih
    · simp

lemma lookup_none_not_mem {α β : Type} [BEq α] [LawfulBEq α]
    (l : List (α × β)) (a : α) (h : l.lookup a = none) : a ∉ l.map Prod.fst := by
  induction l with
  | nil => simp
  | cons kv l ih =>
    obtain ⟨k, v⟩ := kv
    rw [List.lookup_cons] at h
    cases hb : a == k
    · rw [hb] at h
      simp only [List.map_cons, List.mem_cons]
      rintro (rfl | hmem)
      · simp at hb
      · exact ih h hmem
    · rw [hb] at h
      simp at h

lemma buildIndexAux_lookup (items : List RawRecord)
    (acc : List (String × PostcodeEntry)) (pc : String) :
    (items.foldl addRecord acc).lookup pc =
      (acc.lookup pc).or ((firstKept items pc).map mkEntry) := by
  induction items generalizing acc with
  | nil => simp [firstKept]
  | cons r items ih =>
    rw [List.foldl_cons, ih]
    unfold firstKept
    rcases hp : r.postcode with _ | pc'
    · have hm : matchesPC pc r = false := by
        simp [matchesPC, hp]
      rw [List.find?_cons_of_neg _ (by simp [hm])]
      have hadd : addRecord acc r = acc := by
        simp only [addRecord, hp]
      rw [hadd]
    · by_cases hcond : pc' ≠ "" ∧ acc.lookup pc' = none ∧ keepRecord r = true
      · have hadd : addRecord acc r = acc ++ [(pc', mkEntry r)] := by
          simp only [addRecord, hp]
          rw [if_pos hcond]
        rw [hadd, lookup_append]
        by_cases hpc : pc = pc'
        · subst hpc
          have hm : matchesPC pc r = true := by
            simp [matchesPC, hp, hcond.1, hcond.2.2]
          rw [List.find?_cons_of_pos _ hm, hcond.2.1]
          simp [List.lookup_cons]
        · have hm : matchesPC pc r = false := by
            have hne : pc' ≠ pc := Ne.symm hpc
            simp [matchesPC, hp, hne]
          rw [List.find?_cons_of_neg _ (by simp [hm])]
          have hb : (pc == pc') = false := by
            simpa using hpc
          have hsingle :
              ([(pc', mkEntry r)] : List (String × PostcodeEntry)).lookup pc = none := by
            simp [List.lookup_cons, hb]
          rw [hsingle, Option.or_none]
      · have hadd : addRecord acc r = acc := by
          simp only [addRecord, hp]
          rw [if_neg hcond]
        rw [hadd]
        by_cases hm : matchesPC pc r = true
        · have hm' : pc' = pc ∧ pc ≠ "" ∧ keepRecord r = true := by
            have hx := hm
            simp only [matchesPC, hp, Bool.and_eq_true, decide_eq_true_eq,
              Option.some.injEq] at hx
            exact ⟨hx.1.1, hx.1.1 ▸ hx.1.2, hx.2⟩
          obtain ⟨rfl, hne, hkeep⟩ := hm'
          have hlook : acc.lookup pc' ≠ none := fun hn => hcond ⟨hne, hn, hkeep⟩
          rcases ho : acc.lookup pc' with _ | v
          · exact absurd ho hlook
          · simp
        · rw [List.find?_cons_of_neg _ hm]

lemma buildIndexAux_keys_nodup (items : List RawRecord)
    (acc : List (String × PostcodeEntry)) (h : (acc.map Prod.fst).Nodup) :
    ((items.foldl addRecord acc).map Prod.fst).Nodup := by
  induction items generalizing acc with
  | nil => simpa
  | cons r items ih =>
    rw [List.foldl_cons]
    apply ih
    rcases hp : r.postcode with _ | pc
    · simpa only [addRecord, hp] using h
    · simp only [addRecord, hp]
      split_ifs with hc
      · rw [List.map_append, List.nodup_append]
        refine ⟨h, by simp, ?_⟩
        intro a ha hb
        simp only [List.map_cons, List.map_nil, List.mem_singleton] at hb
        subst hb
        exact lookup_none_not_mem acc a hc.2.1 ha
      · exact h

/-- C9: the postcode index built from any raw dataset has at most one
entry per postcode, and its entry for a postcode is exactly the first
record in input order that carries that (non-empty) postcode and passes
the region filter (state VIC, or WA with latitude < -20, or NT); records
failing the filter, and later duplicates, are excluded. -/
theorem postcodeIndexInvariant (items : List RawRecord) :
    ((buildIndex items).map Prod.fst).Nodup ∧
      ∀ pc : String, (buildIndex items).lookup pc = (firstKept items pc).map mkEntry := by
  constructor
  · exact buildIndexAux_keys_nodup items [] (by simp)
  · intro pc
    unfold buildIndex
    rw [buildIndexAux_lookup]
    simp

lemma finallyStep_loading (s : SessionState) : (finallyStep s).is_loading = false := by
  simp only [finallyStep]
  split_ifs <;> rfl

lemma finallyStep_visible (s : SessionState) (h : s.show_results = false) :
    (finallyStep s).show_results = true →
      (finallyStep s).error_message = "" ∧
        (finallyStep s).calculation_result.isSome = true := by
  simp only [finallyStep]
  split_ifs with hc
  · intro _
    exact ⟨hc.1, hc.2⟩
  · intro hs
    simp only [] at hs
    rw [h] at hs
    cases hs

lemma tryBody_show_results (env : Env) (s1 : SessionState)
    (h : s1.show_results = false) : (tryBody env s1).show_results = false := by
  unfold tryBody resolveLocation fetchWeatherData performCalculationsStep
  rcases env.resolve with loc | msg | msg
  · rcases env.fetch with ps | msg2
    · rcases hpc : performCalculations s1.grass_type s1.sprinkler_type env.month ps
        with msg3 | r <;> simp [hpc, h]
    · simp [h]
  · simp [h]
  · simp [h]

/-- C10 counterexample: a run that fails postcode validation while stale
results from an earlier successful run are still visible ends with a
non-empty error message shown alongside visible results, contradicting
the claim that an attempt never ends in that combination. -/
theorem staleResultsValidationCounterexample :
    (let s0 : SessionState :=
      { grass_type := "buffalo", postcode := "30", sprinkler_type := "Oscillating",
        is_loading := false, error_message := "", location := none,
        weather_station_info := "", calculation_result := none,
        show_results := true }
     let env0 : Env := { resolve := .failed "x", fetch := .failed "x", month := 1 }
     s0.is_loading = false ∧ (calculateWatering env0 s0).show_results = true ∧
       (calculateWatering env0 s0).error_message ≠ "") :=
  ⟨rfl, rfl, by decide⟩

/-- C10 amended: provided the loading flag is false when the run starts,
it is false again after every run; a run that passes postcode validation
marks results visible only when the error message is empty and a
recommendation was stored; a run that fails validation leaves the
results-visible flag unchanged (so stale visible results can stand next
to the new validation error). -/
theorem loadingClearedVisibilityAmended (env : Env) (s : SessionState)
    (h : s.is_loading = false) :
    (calculateWatering env s).is_loading = false ∧
      (isFormValid s = true →
        ((calculateWatering env s).show_results = true →
          (calculateWatering env s).error_message = "" ∧
            (calculateWatering env s).calculation_result.isSome = true)) ∧
      (isFormValid s = false →
        (calculateWatering env s).show_results = s.show_results) := by
  unfold calculateWatering
  cases hv : isFormValid s
  · rw [if_pos rfl]
    refine ⟨h, ?_, fun _ => rfl⟩
    intro hv'
    exact Bool.noConfusion hv'
  · rw [if_neg (by simp)]
    refine ⟨finallyStep_loading _, ?_, ?_⟩
    · intro _
      exact finallyStep_visible _ (tryBody_show_results env _ rfl)
    · intro hv'
      exact Bool.noConfusion hv'

theorem loadingClearedVisibilityAmendedWitness :
    (let s0 : SessionState :=
      { grass_type := "buffalo", postcode := "3000", sprinkler_type := "Oscillating",
        is_loading := false, error_message := "", location := none,
        weather_station_info := "", calculation_result := none,
        show_results := false }
     let env0 : Env := { resolve := .raised "boom", fetch := .failed "x", month := 1 }
     (calculateWatering env0 s0).is_loading = false ∧
       (isFormValid s0 = true →
         ((calculateWatering env0 s0).show_results = true →
           (calculateWatering env0 s0).error_message = "" ∧
             (calculateWatering env0 s0).calculation_result.isSome = true)) ∧
       (isFormValid s0 = false →
         (calculateWatering env0 s0).show_results = s0.show_results)) :=
  loadingClearedVisibilityAmended
    { resolve := .raised "boom", fetch := .failed "x", month := 1 }
    { grass_type := "buffalo", postcode := "3000", sprinkler_type := "Oscillating",
      is_loading := false, error_message := "", location := none,
      weather_station_info := "", calculation_result := none,
      show_results := false }
    rfl

end TurfCast
